import Mathlib

/-!
Verification of the LCD rendering/caching/diffing pipeline.

This file gives a shallow embedding, in Lean, of the core data model and
operations of the `lcd-experiments` repository: the glyph ROM lookup table
(`ddrom.rs`), the per-cell glyph resolution of `Canvas::render_char`
(`canvas.rs`), the circular pixel shift `Canvas::shift_left`, the
diff/update folds of `main.rs`, the command encoding and settle timing of
the driver (`cmd.rs`, `driver.rs`), and the tri-state data bus
(`lcd/bus.rs`).  Bytes are modelled as `Nat` with explicit masking where
the source relies on `u8` wrap-around.
-/

namespace Lcd

/-- The DDROM lookup table of `src/lcd/ddrom.rs`: every bitmap present in
the character ROM paired with its ROM address.  Each bitmap is the list of
its 8 rows, one byte per row, low 5 bits meaningful.  Transcribed entry by
entry from the `phf_map!` literal `MAP`. -/
def ddromMap : List (List Nat × Nat) := [
  ([0b00000, 0b00000, 0b00000, 0b00000, 0b00000, 0b00000, 0b00000, 0b00000], 0x83),
  ([0b00000, 0b00000, 0b00000, 0b00000, 0b00000, 0b00000, 0b11111, 0b00000], 0x5f),
  ([0b00000, 0b00000, 0b00000, 0b00000, 0b00000, 0b01100, 0b01100, 0b00000], 0x2e),
  ([0b00000, 0b00000, 0b00000, 0b00000, 0b01100, 0b00100, 0b01000, 0b00000], 0x2c),
  ([0b00000, 0b00000, 0b00000, 0b00000, 0b10000, 0b01000, 0b00100, 0b00000], 0xa4),
  ([0b00000, 0b00000, 0b00000, 0b00000, 0b11100, 0b10100, 0b11100, 0b00000], 0xa1),
  ([0b00000, 0b00000, 0b00000, 0b00100, 0b00100, 0b00100, 0b11100, 0b00000], 0xa3),
  ([0b00000, 0b00000, 0b00000, 0b01011, 0b10101, 0b11010, 0b00000, 0b00000], 0xf3),
  ([0b00000, 0b00000, 0b00000, 0b01100, 0b01100, 0b00000, 0b00000, 0b00000], 0xa5),
  ([0b00000, 0b00000, 0b00000, 0b01110, 0b00010, 0b00010, 0b11111, 0b00000], 0xad),
  ([0b00000, 0b00000, 0b00000, 0b10101, 0b10101, 0b00001, 0b00110, 0b00000], 0xaf),
  ([0b00000, 0b00000, 0b00000, 0b11111, 0b00000, 0b00000, 0b00000, 0b00000], 0x2d),
  ([0b00000, 0b00000, 0b00000, 0b11111, 0b00100, 0b00100, 0b11111, 0b00000], 0xaa),
  ([0b00000, 0b00000, 0b00010, 0b00100, 0b01100, 0b10100, 0b00100, 0b00000], 0xa8),
  ([0b00000, 0b00000, 0b00010, 0b11111, 0b00110, 0b01010, 0b10010, 0b00000], 0xab),
  ([0b00000, 0b00000, 0b00100, 0b00000, 0b11111, 0b00000, 0b00100, 0b00000], 0xfd),
  ([0b00000, 0b00000, 0b00100, 0b11111, 0b10001, 0b00001, 0b00110, 0b00000], 0xa9),
  ([0b00000, 0b00000, 0b00110, 0b01001, 0b10001, 0b10001, 0b11110, 0b10000], 0xe6),
  ([0b00000, 0b00000, 0b00111, 0b00100, 0b00100, 0b10100, 0b01000, 0b00000], 0xe8),
  ([0b00000, 0b00000, 0b01000, 0b11111, 0b01001, 0b01010, 0b01000, 0b00000], 0xac),
  ([0b00000, 0b00000, 0b01001, 0b10101, 0b10010, 0b10010, 0b01101, 0b00000], 0xe0),
  ([0b00000, 0b00000, 0b01101, 0b10011, 0b01111, 0b00001, 0b00001, 0b00000], 0x71),
  ([0b00000, 0b00000, 0b01101, 0b10011, 0b10001, 0b10001, 0b01111, 0b00001], 0xf1),
  ([0b00000, 0b00000, 0b01110, 0b00001, 0b01111, 0b10001, 0b01111, 0b00000], 0x61),
  ([0b00000, 0b00000, 0b01110, 0b10000, 0b01100, 0b10001, 0b01110, 0b00000], 0xe3),
  ([0b00000, 0b00000, 0b01110, 0b10000, 0b01110, 0b00001, 0b11110, 0b00000], 0x73),
  ([0b00000, 0b00000, 0b01110, 0b10000, 0b10000, 0b10001, 0b01110, 0b00000], 0x63),
  ([0b00000, 0b00000, 0b01110, 0b10001, 0b10001, 0b01010, 0b11011, 0b00000], 0xf4),
  ([0b00000, 0b00000, 0b01110, 0b10001, 0b10001, 0b10001, 0b01110, 0b00000], 0x6f),
  ([0b00000, 0b00000, 0b01110, 0b10001, 0b11110, 0b10001, 0b11110, 0b10000], 0xe2),
  ([0b00000, 0b00000, 0b01110, 0b10001, 0b11111, 0b10000, 0b01110, 0b00000], 0x65),
  ([0b00000, 0b00000, 0b01111, 0b10001, 0b10001, 0b10001, 0b01111, 0b00001], 0xe7),
  ([0b00000, 0b00000, 0b01111, 0b10100, 0b10010, 0b10001, 0b01110, 0b00000], 0xe5),
  ([0b00000, 0b00000, 0b10001, 0b01010, 0b00100, 0b01010, 0b10001, 0b00000], 0x78),
  ([0b00000, 0b00000, 0b10001, 0b10001, 0b01111, 0b00001, 0b01110, 0b00000], 0x79),
  ([0b00000, 0b00000, 0b10001, 0b10001, 0b10001, 0b01010, 0b00100, 0b00000], 0x76),
  ([0b00000, 0b00000, 0b10001, 0b10001, 0b10001, 0b10001, 0b01111, 0b00001], 0xf9),
  ([0b00000, 0b00000, 0b10001, 0b10001, 0b10001, 0b10011, 0b01101, 0b00000], 0x75),
  ([0b00000, 0b00000, 0b10001, 0b10001, 0b10001, 0b10011, 0b11101, 0b10000], 0xe4),
  ([0b00000, 0b00000, 0b10001, 0b10001, 0b10101, 0b10101, 0b01010, 0b00000], 0x77),
  ([0b00000, 0b00000, 0b10110, 0b11001, 0b10000, 0b10000, 0b10000, 0b00000], 0x72),
  ([0b00000, 0b00000, 0b10110, 0b11001, 0b10001, 0b10001, 0b10001, 0b00000], 0x6e),
  ([0b00000, 0b00000, 0b10110, 0b11001, 0b10001, 0b10001, 0b11110, 0b10000], 0xf0),
  ([0b00000, 0b00000, 0b11010, 0b10101, 0b10101, 0b10001, 0b10001, 0b00000], 0x6d),
  ([0b00000, 0b00000, 0b11110, 0b00010, 0b11110, 0b00010, 0b11110, 0b00000], 0xae),
  ([0b00000, 0b00000, 0b11110, 0b10001, 0b11110, 0b10000, 0b10000, 0b00000], 0x70),
  ([0b00000, 0b00000, 0b11111, 0b00000, 0b11111, 0b00000, 0b00000, 0b00000], 0x3d),
  ([0b00000, 0b00000, 0b11111, 0b00001, 0b00110, 0b00100, 0b01000, 0b00000], 0xa7),
  ([0b00000, 0b00000, 0b11111, 0b00010, 0b00100, 0b01000, 0b11111, 0b00000], 0x7a),
  ([0b00000, 0b00000, 0b11111, 0b01000, 0b01111, 0b01001, 0b10001, 0b00000], 0xfb),
  ([0b00000, 0b00000, 0b11111, 0b01010, 0b01010, 0b01010, 0b10011, 0b00000], 0xf7),
  ([0b00000, 0b00000, 0b11111, 0b10101, 0b11111, 0b10001, 0b10001, 0b00000], 0xfc),
  ([0b00000, 0b00001, 0b00001, 0b01010, 0b00100, 0b01010, 0b10000, 0b00000], 0xd2),
  ([0b00000, 0b00001, 0b00010, 0b00100, 0b01000, 0b10000, 0b00000, 0b00000], 0x2f),
  ([0b00000, 0b00001, 0b11110, 0b00100, 0b11111, 0b00100, 0b00100, 0b00000], 0xfa),
  ([0b00000, 0b00010, 0b11010, 0b00010, 0b00000, 0b00000, 0b00000, 0b00000], 0xe9),
  ([0b00000, 0b00100, 0b00010, 0b10001, 0b10001, 0b10001, 0b10001, 0b00000], 0xca),
  ([0b00000, 0b00100, 0b00010, 0b11111, 0b00010, 0b00100, 0b00000, 0b00000], 0x7e),
  ([0b00000, 0b00100, 0b00100, 0b11111, 0b00100, 0b00100, 0b00000, 0b00000], 0x2b),
  ([0b00000, 0b00100, 0b01000, 0b10000, 0b10001, 0b11111, 0b00001, 0b00000], 0xd1),
  ([0b00000, 0b00100, 0b01000, 0b11111, 0b01000, 0b00100, 0b00000, 0b00000], 0x7f),
  ([0b00000, 0b00100, 0b01110, 0b10100, 0b10101, 0b01110, 0b00100, 0b00000], 0xec),
  ([0b00000, 0b00100, 0b10100, 0b10100, 0b10101, 0b10101, 0b10110, 0b00000], 0xd9),
  ([0b00000, 0b00100, 0b10101, 0b01110, 0b10101, 0b00100, 0b00000, 0b00000], 0x2a),
  ([0b00000, 0b01000, 0b10100, 0b00010, 0b00001, 0b00001, 0b00000, 0b00000], 0xcd),
  ([0b00000, 0b01100, 0b01100, 0b00000, 0b01100, 0b00100, 0b01000, 0b00000], 0x3b),
  ([0b00000, 0b01100, 0b01100, 0b00000, 0b01100, 0b01100, 0b00000, 0b00000], 0x3a),
  ([0b00000, 0b01110, 0b00000, 0b00000, 0b00000, 0b00000, 0b11111, 0b00000], 0xc6),
  ([0b00000, 0b01110, 0b00000, 0b01110, 0b00000, 0b01110, 0b00001, 0b00000], 0xd0),
  ([0b00000, 0b01110, 0b00010, 0b00010, 0b00010, 0b00010, 0b11111, 0b00000], 0xd5),
  ([0b00000, 0b01110, 0b10001, 0b11111, 0b10001, 0b10001, 0b01110, 0b00000], 0xf2),
  ([0b00000, 0b01111, 0b01001, 0b10001, 0b00001, 0b00010, 0b01100, 0b00000], 0xb8),
  ([0b00000, 0b01111, 0b01001, 0b10101, 0b00011, 0b00010, 0b01100, 0b00000], 0xc0),
  ([0b00000, 0b01111, 0b10001, 0b10001, 0b01111, 0b00001, 0b01110, 0b00000], 0x67),
  ([0b00000, 0b10000, 0b10000, 0b10001, 0b10010, 0b10100, 0b11000, 0b00000], 0xda),
  ([0b00000, 0b10001, 0b10001, 0b01001, 0b00001, 0b00010, 0b01100, 0b00000], 0xbf),
  ([0b00000, 0b10100, 0b01000, 0b10100, 0b00000, 0b00000, 0b00000, 0b00000], 0xeb),
  ([0b00000, 0b10101, 0b10101, 0b10101, 0b00001, 0b00010, 0b00100, 0b00000], 0xc2),
  ([0b00000, 0b11000, 0b00000, 0b00001, 0b00001, 0b00010, 0b11100, 0b00000], 0xdd),
  ([0b00000, 0b11000, 0b00001, 0b11001, 0b00001, 0b00010, 0b11100, 0b00000], 0xbc),
  ([0b00000, 0b11111, 0b00001, 0b00001, 0b00001, 0b00001, 0b11111, 0b00000], 0xba),
  ([0b00000, 0b11111, 0b00001, 0b00001, 0b00001, 0b00010, 0b01100, 0b00000], 0xcc),
  ([0b00000, 0b11111, 0b00001, 0b00001, 0b01010, 0b00100, 0b00010, 0b00000], 0xcf),
  ([0b00000, 0b11111, 0b00001, 0b00010, 0b00100, 0b01010, 0b10001, 0b00000], 0xbd),
  ([0b00000, 0b11111, 0b00001, 0b01010, 0b00100, 0b01010, 0b10000, 0b00000], 0xc7),
  ([0b00000, 0b11111, 0b00001, 0b11111, 0b00001, 0b00001, 0b11111, 0b00000], 0xd6),
  ([0b00000, 0b11111, 0b00001, 0b11111, 0b00001, 0b00010, 0b00100, 0b00000], 0xa6),
  ([0b00000, 0b11111, 0b00100, 0b00100, 0b00100, 0b00100, 0b11111, 0b00000], 0xb4),
  ([0b00000, 0b11111, 0b01000, 0b11111, 0b01000, 0b01000, 0b00111, 0b00000], 0xd3),
  ([0b00000, 0b11111, 0b10001, 0b10001, 0b00001, 0b00010, 0b00100, 0b00000], 0xdc),
  ([0b00000, 0b11111, 0b10001, 0b10001, 0b10001, 0b10001, 0b11111, 0b00000], 0xdb),
  ([0b00001, 0b00001, 0b01101, 0b10011, 0b10001, 0b10001, 0b01111, 0b00000], 0x64),
  ([0b00001, 0b00010, 0b00100, 0b01100, 0b10100, 0b00100, 0b00100, 0b00000], 0xb2),
  ([0b00010, 0b00000, 0b00110, 0b00010, 0b00010, 0b00010, 0b00010, 0b00010], 0xea),
  ([0b00010, 0b00000, 0b00110, 0b00010, 0b00010, 0b10010, 0b01100, 0b00000], 0x6a),
  ([0b00010, 0b00010, 0b00010, 0b00010, 0b00010, 0b00100, 0b01000, 0b00000], 0xc9),
  ([0b00010, 0b00100, 0b00100, 0b01000, 0b00100, 0b00100, 0b00010, 0b00000], 0x7b),
  ([0b00010, 0b00100, 0b01000, 0b01000, 0b01000, 0b00100, 0b00010, 0b00000], 0x28),
  ([0b00010, 0b00100, 0b01000, 0b10000, 0b01000, 0b00100, 0b00010, 0b00000], 0x3c),
  ([0b00010, 0b00110, 0b01010, 0b10010, 0b11111, 0b00010, 0b00010, 0b00000], 0x34),
  ([0b00010, 0b11100, 0b00100, 0b11111, 0b00100, 0b00100, 0b01000, 0b00000], 0xc1),
  ([0b00010, 0b11111, 0b00010, 0b00110, 0b01010, 0b10010, 0b00010, 0b00000], 0xb5),
  ([0b00100, 0b00000, 0b01100, 0b00100, 0b00100, 0b00100, 0b01110, 0b00000], 0x69),
  ([0b00100, 0b00100, 0b00100, 0b00100, 0b00000, 0b00000, 0b00100, 0b00000], 0x21),
  ([0b00100, 0b00100, 0b00100, 0b00100, 0b00100, 0b00100, 0b00100, 0b00000], 0x7c),
  ([0b00100, 0b00100, 0b11111, 0b00100, 0b00100, 0b01000, 0b10000, 0b00000], 0xc5),
  ([0b00100, 0b01010, 0b10001, 0b00000, 0b00000, 0b00000, 0b00000, 0b00000], 0x5e),
  ([0b00100, 0b01100, 0b00100, 0b00100, 0b00100, 0b00100, 0b01110, 0b00000], 0x31),
  ([0b00100, 0b01111, 0b10100, 0b01110, 0b00101, 0b11110, 0b00100, 0b00000], 0x24),
  ([0b00100, 0b10010, 0b01000, 0b00000, 0b00000, 0b00000, 0b00000, 0b00000], 0xde),
  ([0b00100, 0b11111, 0b00010, 0b00100, 0b01110, 0b10101, 0b00100, 0b00000], 0xc8),
  ([0b00100, 0b11111, 0b00100, 0b00100, 0b10101, 0b10101, 0b00100, 0b00000], 0xce),
  ([0b00100, 0b11111, 0b00100, 0b11111, 0b00100, 0b00100, 0b00100, 0b00000], 0xb7),
  ([0b00100, 0b11111, 0b10001, 0b10001, 0b00001, 0b00010, 0b00100, 0b00000], 0xb3),
  ([0b00110, 0b01000, 0b10000, 0b11110, 0b10001, 0b10001, 0b01110, 0b00000], 0x36),
  ([0b00110, 0b01001, 0b01000, 0b11100, 0b01000, 0b01000, 0b01000, 0b00000], 0x66),
  ([0b00111, 0b00010, 0b00010, 0b00010, 0b00010, 0b10010, 0b01100, 0b00000], 0x4a),
  ([0b00111, 0b00100, 0b00100, 0b00100, 0b00000, 0b00000, 0b00000, 0b00000], 0xa2),
  ([0b01000, 0b00100, 0b00010, 0b00000, 0b00000, 0b00000, 0b00000, 0b00000], 0x60),
  ([0b01000, 0b00100, 0b00010, 0b00001, 0b00010, 0b00100, 0b01000, 0b00000], 0x3e),
  ([0b01000, 0b00100, 0b00010, 0b00010, 0b00010, 0b00100, 0b01000, 0b00000], 0x29),
  ([0b01000, 0b00100, 0b00100, 0b00010, 0b00100, 0b00100, 0b01000, 0b00000], 0x7d),
  ([0b01000, 0b01000, 0b01000, 0b01100, 0b01010, 0b01000, 0b01000, 0b00000], 0xc4),
  ([0b01000, 0b01000, 0b11100, 0b01000, 0b01000, 0b01001, 0b00110, 0b00000], 0x74),
  ([0b01000, 0b01000, 0b11100, 0b01000, 0b11100, 0b01000, 0b01111, 0b00000], 0xed),
  ([0b01000, 0b01000, 0b11111, 0b01001, 0b01010, 0b01000, 0b01000, 0b00000], 0xd4),
  ([0b01000, 0b01111, 0b10010, 0b00010, 0b00010, 0b00010, 0b00100, 0b00000], 0xb9),
  ([0b01000, 0b11111, 0b01001, 0b01001, 0b01001, 0b01001, 0b10010, 0b00000], 0xb6),
  ([0b01000, 0b11111, 0b01001, 0b01010, 0b01000, 0b01000, 0b00111, 0b00000], 0xbe),
  ([0b01010, 0b00000, 0b01110, 0b00001, 0b01111, 0b10001, 0b01111, 0b00000], 0xe1),
  ([0b01010, 0b00000, 0b01110, 0b10001, 0b10001, 0b10001, 0b01110, 0b00000], 0xef),
  ([0b01010, 0b00000, 0b10001, 0b10001, 0b10001, 0b10011, 0b01101, 0b00000], 0xf5),
  ([0b01010, 0b01010, 0b01010, 0b00000, 0b00000, 0b00000, 0b00000, 0b00000], 0x22),
  ([0b01010, 0b01010, 0b11111, 0b01010, 0b11111, 0b01010, 0b01010, 0b00000], 0x23),
  ([0b01010, 0b11111, 0b01010, 0b01010, 0b00010, 0b00100, 0b01000, 0b00000], 0xbb),
  ([0b01100, 0b00100, 0b00100, 0b00100, 0b00100, 0b00100, 0b01110, 0b00000], 0x6c),
  ([0b01100, 0b00100, 0b01000, 0b00000, 0b00000, 0b00000, 0b00000, 0b00000], 0x27),
  ([0b01100, 0b10010, 0b10100, 0b01000, 0b10101, 0b10010, 0b01101, 0b00000], 0x26),
  ([0b01110, 0b00000, 0b10110, 0b11001, 0b10001, 0b10001, 0b10001, 0b00000], 0xee),
  ([0b01110, 0b00000, 0b11111, 0b00001, 0b00001, 0b00010, 0b00100, 0b00000], 0xd7),
  ([0b01110, 0b00000, 0b11111, 0b00100, 0b00100, 0b00100, 0b01000, 0b00000], 0xc3),
  ([0b01110, 0b00010, 0b00010, 0b00010, 0b00010, 0b00010, 0b01110, 0b00000], 0x5d),
  ([0b01110, 0b00100, 0b00100, 0b00100, 0b00100, 0b00100, 0b01110, 0b00000], 0x49),
  ([0b01110, 0b01000, 0b01000, 0b01000, 0b01000, 0b01000, 0b01110, 0b00000], 0x5b),
  ([0b01110, 0b10001, 0b00001, 0b00010, 0b00100, 0b00000, 0b00100, 0b00000], 0x3f),
  ([0b01110, 0b10001, 0b00001, 0b00010, 0b00100, 0b01000, 0b11111, 0b00000], 0x32),
  ([0b01110, 0b10001, 0b00001, 0b01101, 0b10101, 0b10101, 0b01110, 0b00000], 0x40),
  ([0b01110, 0b10001, 0b10000, 0b10000, 0b10000, 0b10001, 0b01110, 0b00000], 0x43),
  ([0b01110, 0b10001, 0b10000, 0b10111, 0b10001, 0b10001, 0b01111, 0b00000], 0x47),
  ([0b01110, 0b10001, 0b10001, 0b01110, 0b10001, 0b10001, 0b01110, 0b00000], 0x38),
  ([0b01110, 0b10001, 0b10001, 0b01111, 0b00001, 0b00010, 0b01100, 0b00000], 0x39),
  ([0b01110, 0b10001, 0b10001, 0b10001, 0b10001, 0b10001, 0b01110, 0b00000], 0x4f),
  ([0b01110, 0b10001, 0b10001, 0b10001, 0b10101, 0b10010, 0b01101, 0b00000], 0x51),
  ([0b01110, 0b10001, 0b10001, 0b10001, 0b11111, 0b10001, 0b10001, 0b00000], 0x41),
  ([0b01110, 0b10001, 0b10011, 0b10101, 0b11001, 0b10001, 0b01110, 0b00000], 0x30),
  ([0b01111, 0b10000, 0b10000, 0b01110, 0b00001, 0b00001, 0b11110, 0b00000], 0x53),
  ([0b10000, 0b10000, 0b10000, 0b10000, 0b10000, 0b10000, 0b11111, 0b00000], 0x4c),
  ([0b10000, 0b10000, 0b10010, 0b10100, 0b11000, 0b10100, 0b10010, 0b00000], 0x6b),
  ([0b10000, 0b10000, 0b10110, 0b11001, 0b10001, 0b10001, 0b10001, 0b00000], 0x68),
  ([0b10000, 0b10000, 0b10110, 0b11001, 0b10001, 0b10001, 0b11110, 0b00000], 0x62),
  ([0b10000, 0b10000, 0b11111, 0b10000, 0b10000, 0b10000, 0b01111, 0b00000], 0xcb),
  ([0b10001, 0b01010, 0b11111, 0b00100, 0b11111, 0b00100, 0b00100, 0b00000], 0x5c),
  ([0b10001, 0b10001, 0b01010, 0b00100, 0b01010, 0b10001, 0b10001, 0b00000], 0x58),
  ([0b10001, 0b10001, 0b10001, 0b01010, 0b00100, 0b00100, 0b00100, 0b00000], 0x59),
  ([0b10001, 0b10001, 0b10001, 0b10001, 0b10001, 0b01010, 0b00100, 0b00000], 0x56),
  ([0b10001, 0b10001, 0b10001, 0b10001, 0b10001, 0b10001, 0b01110, 0b00000], 0x55),
  ([0b10001, 0b10001, 0b10001, 0b10101, 0b10101, 0b10101, 0b01010, 0b00000], 0x57),
  ([0b10001, 0b10001, 0b10001, 0b11111, 0b10001, 0b10001, 0b10001, 0b00000], 0x48),
  ([0b10001, 0b10001, 0b11001, 0b10101, 0b10011, 0b10001, 0b10001, 0b00000], 0x4e),
  ([0b10001, 0b10010, 0b10100, 0b11000, 0b10100, 0b10010, 0b10001, 0b00000], 0x4b),
  ([0b10001, 0b11011, 0b10101, 0b10101, 0b10001, 0b10001, 0b10001, 0b00000], 0x4d),
  ([0b10010, 0b10010, 0b10010, 0b10010, 0b00010, 0b00100, 0b01000, 0b00000], 0xd8),
  ([0b11000, 0b11001, 0b00010, 0b00100, 0b01000, 0b10011, 0b00011, 0b00000], 0x25),
  ([0b11100, 0b10010, 0b10001, 0b10001, 0b10001, 0b10010, 0b11100, 0b00000], 0x44),
  ([0b11100, 0b10100, 0b11100, 0b00000, 0b00000, 0b00000, 0b00000, 0b00000], 0xdf),
  ([0b11110, 0b10001, 0b10001, 0b11110, 0b10000, 0b10000, 0b10000, 0b00000], 0x50),
  ([0b11110, 0b10001, 0b10001, 0b11110, 0b10001, 0b10001, 0b11110, 0b00000], 0x42),
  ([0b11110, 0b10001, 0b10001, 0b11110, 0b10100, 0b10010, 0b10001, 0b00000], 0x52),
  ([0b11111, 0b00000, 0b10001, 0b01010, 0b00100, 0b01010, 0b10001, 0b00000], 0xf8),
  ([0b11111, 0b00001, 0b00010, 0b00100, 0b01000, 0b01000, 0b01000, 0b00000], 0x37),
  ([0b11111, 0b00001, 0b00010, 0b00100, 0b01000, 0b10000, 0b11111, 0b00000], 0x5a),
  ([0b11111, 0b00001, 0b00101, 0b00110, 0b00100, 0b00100, 0b01000, 0b00000], 0xb1),
  ([0b11111, 0b00010, 0b00100, 0b00010, 0b00001, 0b10001, 0b01110, 0b00000], 0x33),
  ([0b11111, 0b00100, 0b00100, 0b00100, 0b00100, 0b00100, 0b00100, 0b00000], 0x54),
  ([0b11111, 0b10000, 0b01000, 0b00100, 0b01000, 0b10000, 0b11111, 0b00000], 0xf6),
  ([0b11111, 0b10000, 0b10000, 0b11110, 0b10000, 0b10000, 0b10000, 0b00000], 0x46),
  ([0b11111, 0b10000, 0b10000, 0b11110, 0b10000, 0b10000, 0b11111, 0b00000], 0x45),
  ([0b11111, 0b10000, 0b11110, 0b00001, 0b00001, 0b10001, 0b01110, 0b00000], 0x35),
  ([0b11111, 0b11111, 0b11111, 0b11111, 0b11111, 0b11111, 0b11111, 0b11111], 0xff)
]

/-- Exact-match search of a bitmap in the DDROM, `ddrom::search`:
`MAP.get(&char.raw()).copied()`.  Returns the ROM address of the first
(unique) entry whose bitmap equals the argument. -/
def ddromSearch (g : List Nat) : Option Nat :=
  (ddromMap.find? (fun p => p.1 == g)).map (fun p => p.2)

/-- The bitmap of the all-blank glyph (every row zero). -/
def blankRows : List Nat := [0, 0, 0, 0, 0, 0, 0, 0]

/-- Model of `cgram.iter().position(|&c| c == raw)`: index of the first
cache slot holding exactly the bitmap `g`. -/
def position (g : List Nat) : List (List Nat) → Option Nat
  | [] => none
  | c :: rest => if c = g then some 0 else (position g rest).map (fun i => i + 1)

/-- Model of `Canvas::render_char` from `src/lcd/canvas.rs`.  The CGRAM
cache is the list of occupied slots (a `heapless::Vec<[u8; 8], 8>`, so a
push fails exactly when 8 slots are occupied).  Resolution order follows
the `or_else` chain of the source: ROM exact match, then exact match
against an occupied slot, then allocation of the next free slot (the
returned address is `cgram.len() - 1` after the push, i.e. the old
length), and finally the fallback byte `b' '` (32) with the cache left
unchanged. -/
def renderChar (ch : List Nat) (cg : List (List Nat)) : Nat × List (List Nat) :=
  match ddromSearch ch with
  | some a => (a, cg)
  | none =>
    match position ch cg with
    | some i => (i, cg)
    | none => if cg.length < 8 then (cg.length, cg ++ [ch]) else (32, cg)

/-- The gap policy of `src/lcd/canvas.rs` (`enum Gap`). -/
inductive Gap
  | skip
  | hide
deriving DecidableEq

/-- The canvas contents: 16 cells of 8 row bytes each (`[[u8; 8]; 16]`). -/
def CanvasData := Fin 16 → Fin 8 → Nat

instance : DecidableEq CanvasData :=
  inferInstanceAs (DecidableEq (Fin 16 → Fin 8 → Nat))

/-- The shift width of `Canvas::shift_left`:
`5 + u8::from(gap == Gap::Hide)`. -/
def shiftAmt (g : Gap) : Nat := 5 + (if g = Gap.hide then 1 else 0)

/-- One iteration of the carry loop of `Canvas::shift_left`, at cell `x`:
`data[prev][y] |= data[x][y] >> shift; data[x][y] &= mask;` for every row
`y`, with `prev = x.checked_sub(1).unwrap_or(15)` (in `Fin 16` that is
`x - 1`, wrapping from 0 to 15).  The two updated cells are distinct, so
the per-row interleaving of the source collapses to one simultaneous
update reading the pre-iteration state. -/
def shiftStep (sh mask : Nat) (x : Fin 16) (d : CanvasData) : CanvasData :=
  fun c y =>
    if c = x - 1 then d c y ||| (d x y >>> sh)
    else if c = x then d c y &&& mask
    else d c y

/-- The carry loop of `Canvas::shift_left` run for cells `0, 1, ..., n-1`
in increasing order (the source iterates `for x in 0usize..16`). -/
def shiftLoop (sh mask : Nat) : Nat → CanvasData → CanvasData
  | 0, d => d
  | n + 1, d => shiftStep sh mask (Fin.ofNat n) (shiftLoop sh mask n d)

/-- Model of `Canvas::shift_left` with an explicit gap policy (the source
resolves `custom_gap.unwrap_or(self.gap)` to one effective `Gap` first).
Every row byte is first shifted left one bit (`*v <<= 1` on `u8`, hence
the `% 256`), then the carry loop runs over all 16 cells. -/
def shiftLeftC (g : Gap) (d : CanvasData) : CanvasData :=
  shiftLoop (shiftAmt g) ((1 <<< shiftAmt g) - 1) 16 (fun x y => (d x y <<< 1) % 256)

/-- An operation issued to the display during a diff/update pass. -/
inductive Op
  | setCg (a : Nat)
  | setDd (a : Nat)
  | write (v : Nat)
deriving DecidableEq

/-- Model of `changes` from `src/main.rs`: zip the old and new byte
sequences, enumerate, and keep `(index, new)` for every position whose
byte changed. -/
def changes (old new : List Nat) : List (Nat × Nat) :=
  ((old.zip new).enum.filterMap fun p =>
    if p.2.1 ≠ p.2.2 then some (p.1, p.2.2) else none)

/-- The `fold` shared by the two update loops of `main`: the accumulator
`at` is the address the device auto-increment has reached; a change at
index `i` emits an address-set first when `at != i`, then the data write,
and leaves the accumulator at `i + 1`. -/
def updFold (setOp : Nat → Op) : List (Nat × Nat) → Nat → List Op
  | [], _ => []
  | (i, v) :: rest, a =>
    (if a ≠ i then [setOp i] else []) ++ Op.write v :: updFold setOp rest (i + 1)

/-- The CGRAM update pass of `main`: fold the changes of the flattened
CGRAM images, with the accumulator seeded by `cgram.len()` — the number
of occupied slots of the new image, not a byte count. -/
def cgramOps (old new : List (List Nat)) : List Op :=
  updFold Op.setCg (changes old.flatten new.flatten) new.length

/-- The DDRAM row-discontinuity address mapping of `main`:
`if i >= 8 { i - 8 + 0x40 } else { i }`. -/
def ddramAddr (i : Nat) : Nat := if i ≥ 8 then i - 8 + 0x40 else i

/-- The DDRAM update pass of `main`: map each changed cell index through
`ddramAddr`, then fold with the accumulator seeded by `ddram.len()`. -/
def ddramOps (old new : List Nat) : List Op :=
  updFold Op.setDd ((changes old new).map fun p => (ddramAddr p.1, p.2)) new.length

/-- `cmd::Direction`. -/
inductive Direction
  | left
  | right
deriving DecidableEq

/-- `cmd::Shift`: shift target and direction. -/
inductive ShiftKind
  | display (d : Direction)
  | cursor (d : Direction)
deriving DecidableEq

/-- `cmd::Lines`. -/
inductive Lines
  | one
  | two
deriving DecidableEq

/-- `cmd::Font`. -/
inductive Font
  | size5x11
  | size5x8
deriving DecidableEq

/-- `cmd::Command`: the eight command kinds of the controller. -/
inductive Command
  | clear
  | returnHome
  | entryMode (cursor : Direction) (display : Bool)
  | onoff (display cursor blink : Bool)
  | shiftCmd (s : ShiftKind)
  | functionSet (lines : Lines) (font : Font)
  | cgRamAddress (a : Nat)
  | ddRamAddress (a : Nat)
deriving DecidableEq

/-- `Command::bits`: the wire encoding of each command, transcribed match
arm by match arm from `src/lcd/cmd.rs`.  `b as u8` is modelled by
`if b then 1 else 0`. -/
def Command.bits : Command → Nat
  | .clear => 0b00000001
  | .returnHome => 0b00000010
  | .entryMode .left display => 0b00000100 ||| (if display then 1 else 0)
  | .entryMode .right display => 0b00000110 ||| (if display then 1 else 0)
  | .onoff display cursor blink =>
      0b00001000 ||| ((if display then 1 else 0) <<< 2)
        ||| ((if cursor then 1 else 0) <<< 1) ||| (if blink then 1 else 0)
  | .shiftCmd (.display .right) => 0b00011100
  | .shiftCmd (.display .left) => 0b00011000
  | .shiftCmd (.cursor .right) => 0b00010100
  | .shiftCmd (.cursor .left) => 0b00010000
  | .functionSet .one .size5x8 => 0b00110000
  | .functionSet .two .size5x8 => 0b00111000
  | .functionSet .one .size5x11 => 0b00110100
  | .functionSet .two .size5x11 => 0b00111100
  | .cgRamAddress a => 0b01000000 ||| a
  | .ddRamAddress a => 0b10000000 ||| a

/-- The settle delay chosen by `Driver::exec` for each command kind, in
time-units (microseconds), transcribed from the `match cmd` of
`src/lcd/driver.rs`. -/
def settleTime : Command → Nat
  | .clear => 1600
  | .returnHome => 1600
  | .entryMode _ _ => 40
  | .onoff _ _ _ => 40
  | .shiftCmd _ => 40
  | .functionSet _ _ => 40
  | .cgRamAddress _ => 40
  | .ddRamAddress _ => 40

/-- A pin-level event of the driver: register select, read/write select,
placing a byte on the data bus, the enable line, or a blocking delay of
`n` time-units. -/
inductive Ev
  | rs (b : Bool)
  | rw (b : Bool)
  | bus (v : Nat)
  | en (b : Bool)
  | delay (n : Nat)
deriving DecidableEq

/-- The event trace of `Driver::exec(cmd)`: instruction register, write
direction, command byte on the bus, enable pulsed high then low, then the
command's settle delay. -/
def execTrace (cmd : Command) : List Ev :=
  [Ev.rs false, Ev.rw false, Ev.bus cmd.bits, Ev.en true, Ev.en false,
   Ev.delay (settleTime cmd)]

/-- The event trace of `Driver::write(value)`: data register, write
direction, byte on the bus, enable pulsed high then low, then a 37
time-unit delay. -/
def writeTrace (value : Nat) : List Ev :=
  [Ev.rs true, Ev.rw false, Ev.bus value, Ev.en true, Ev.en false,
   Ev.delay 37]

/-- The three states of the data bus of `src/lcd/bus.rs`
(`enum Bus<'a> { Input(..), Output(..), Null }`); the pin arrays are
abstracted away. -/
inductive BusSt
  | input
  | output
  | null
deriving DecidableEq

/-- Outcome of a bus operation: a value, a propagated hardware error, or
the panic of an `unreachable!()` branch. -/
inductive BusOutcome
  | ok (v : Nat)
  | err (e : Nat)
  | panicked
deriving DecidableEq

/-- `Bus::into_input`: only an `Output` bus is reconfigured; the outcome
of the underlying `try_map(PinDriver::into_input)` is the parameter
`pinErr` (`some e` when a line reconfiguration fails). -/
def intoInput (pinErr : Option Nat) : BusSt → Except Nat BusSt
  | .output =>
    match pinErr with
    | some e => .error e
    | none => .ok .input
  | s => .ok s

/-- `Bus::into_output`: only an `Input` bus is reconfigured. -/
def intoOutput (pinErr : Option Nat) : BusSt → Except Nat BusSt
  | .input =>
    match pinErr with
    | some e => .error e
    | none => .ok .output
  | s => .ok s

/-- `Bus::make_input`: `*self = replace(self, Self::NULL).into_input()?`.
On failure the `?` returns before the assignment, so the bus keeps the
`Null` left behind by `replace` and the error is propagated. -/
def makeInput (pinErr : Option Nat) (s : BusSt) : BusSt × Option Nat :=
  match intoInput pinErr s with
  | .ok s2 => (s2, none)
  | .error e => (.null, some e)

/-- `Bus::make_output`, with the same `replace`/`?` structure. -/
def makeOutput (pinErr : Option Nat) (s : BusSt) : BusSt × Option Nat :=
  match intoOutput pinErr s with
  | .ok s2 => (s2, none)
  | .error e => (.null, some e)

/-- `Bus::write`: force the bus into output mode, then match on the state;
the non-`Output` arm is the source's `unreachable!()`.  The byte is
returned in the `ok` outcome in place of driving the 8 lines. -/
def busWrite (pinErr : Option Nat) (s : BusSt) (value : Nat) : BusSt × BusOutcome :=
  match makeOutput pinErr s with
  | (s2, some e) => (s2, .err e)
  | (s2, none) =>
    match s2 with
    | .output => (s2, .ok value)
    | _ => (s2, .panicked)

/-- `Bus::read`: force the bus into input mode, then match on the state;
the non-`Input` arm is the source's `unreachable!()`.  The sampled byte is
abstracted as 0. -/
def busRead (pinErr : Option Nat) (s : BusSt) : BusSt × BusOutcome :=
  match makeInput pinErr s with
  | (s2, some e) => (s2, .err e)
  | (s2, none) =>
    match s2 with
    | .input => (s2, .ok 0)
    | _ => (s2, .panicked)

/-- A canvas holding a single active pixel after `k` left shifts under the
`Hide` policy (6-bit rows): the pixel starts at cell 0, row 0, bit 0, moves
up through bit 5 of its cell, and then enters bit 0 of the previous cell. -/
def ckHide (k : Nat) : CanvasData :=
  fun x y => if y.val = 0 ∧ x.val = (16 - k / 6) % 16 then 2 ^ (k % 6) else 0

/-- The single-pixel canvas after `k` left shifts under the `Skip` policy
(5-bit rows). -/
def ckSkip (k : Nat) : CanvasData :=
  fun x y => if y.val = 0 ∧ x.val = (16 - k / 5) % 16 then 2 ^ (k % 5) else 0

/-- A custom glyph present neither in the DDROM nor in `c1FullCache`. -/
def c1Glyph : List Nat := [31, 31, 31, 31, 31, 31, 31, 9]

/-- A full CGRAM cache: 8 pairwise distinct glyphs, none of them in the
DDROM. -/
def c1FullCache : List (List Nat) :=
  [[31, 31, 31, 31, 31, 31, 31, 0], [31, 31, 31, 31, 31, 31, 31, 1],
   [31, 31, 31, 31, 31, 31, 31, 2], [31, 31, 31, 31, 31, 31, 31, 3],
   [31, 31, 31, 31, 31, 31, 31, 4], [31, 31, 31, 31, 31, 31, 31, 5],
   [31, 31, 31, 31, 31, 31, 31, 6], [31, 31, 31, 31, 31, 31, 31, 7]]

/-- A previous CGRAM image as read back from the device: 8 slots of all
zero bytes. -/
def c2OldCg : List (List Nat) := List.replicate 8 (List.replicate 8 0)

/-- A newly rendered CGRAM image: one occupied slot whose single nonzero
byte sits at flattened index 1, which equals the image's slot count. -/
def c2NewCg : List (List Nat) := [[0, 5, 0, 0, 0, 0, 0, 0]]

end Lcd

namespace Lcd

/-! ### Bit-arithmetic helpers for `shift_left` -/

theorem shl1_mod (a : Nat) (h : a < 128) : (a <<< 1) % 256 = a <<< 1 := by
  rw [Nat.shiftLeft_eq]
  norm_num
  omega

theorem shl1_shr5 (a : Nat) : (a <<< 1) >>> 5 = a >>> 4 := by
  rw [Nat.shiftLeft_eq, Nat.shiftRight_eq_div_pow, Nat.shiftRight_eq_div_pow]
  norm_num
  omega

theorem shl1_shr6 (a : Nat) : (a <<< 1) >>> 6 = a >>> 5 := by
  rw [Nat.shiftLeft_eq, Nat.shiftRight_eq_div_pow, Nat.shiftRight_eq_div_pow]
  norm_num
  omega

theorem shr4_le_one (a : Nat) (h : a < 32) : a >>> 4 ≤ 1 := by
  rw [Nat.shiftRight_eq_div_pow]
  norm_num
  omega

theorem shr5_le_one (a : Nat) (h : a < 64) : a >>> 5 ≤ 1 := by
  rw [Nat.shiftRight_eq_div_pow]
  norm_num
  omega

theorem lor_shr_small (a b sh : Nat) (hb : b ≤ 1) (hsh : 1 ≤ sh) :
    (a ||| b) >>> sh = a >>> sh := by
  apply Nat.eq_of_testBit_eq
  intro i
  rw [Nat.testBit_shiftRight, Nat.testBit_shiftRight, Nat.testBit_or]
  have : b.testBit (sh + i) = false := by
    apply Nat.testBit_lt_two_pow
    calc b ≤ 1 := hb
    _ < 2 ^ (sh + i) := by
      calc (1:Nat) < 2 ^ 1 := by norm_num
      _ ≤ 2 ^ (sh + i) := Nat.pow_le_pow_right (by norm_num) (by omega)
  simp [this]

theorem small_and31 (b : Nat) (hb : b ≤ 1) : b &&& 31 = b := by
  interval_cases b <;> decide

theorem small_and63 (b : Nat) (hb : b ≤ 1) : b &&& 63 = b := by
  interval_cases b <;> decide

theorem even_lor (u v : Nat) (hu : u % 2 = 0) (hv : v ≤ 1) : u ||| v = u + v := by
  interval_cases v
  · simp
  · apply Nat.eq_of_testBit_eq
    intro i
    cases i with
    | zero =>
      rw [Nat.testBit_or]
      simp only [Nat.testBit_zero]
      have h1 : (u + 1) % 2 = 1 := by omega
      simp [h1]
    | succ j =>
      rw [Nat.testBit_or]
      simp only [Nat.testBit_add_one]
      have h1 : (u + 1) / 2 = u / 2 := by omega
      have h2 : (1 : Nat) / 2 = 0 := by norm_num
      rw [h1, h2]
      simp

/-! ### Pointwise characterization of `shift_left` -/

theorem shiftLeftC_eval_skip (d : CanvasData) (hb : ∀ x y, d x y < 32)
    (x : Fin 16) (y : Fin 8) :
    shiftLeftC Gap.skip d x y = ((d x y <<< 1) &&& 31) ||| (d (x + 1) y >>> 4) := by
  have e1 : ∀ c : Fin 16, (d c y <<< 1) % 256 = d c y <<< 1 :=
    fun c => shl1_mod _ (by have := hb c y; omega)
  have e2 : ∀ c : Fin 16, (d c y <<< 1) >>> 5 = d c y >>> 4 :=
    fun c => shl1_shr5 _
  have e3 : ∀ c : Fin 16, d c y >>> 4 ≤ 1 :=
    fun c => shr4_le_one _ (hb c y)
  fin_cases x <;>
    simp +decide [shiftLeftC, shiftLoop, shiftStep, shiftAmt, Fin.ofNat, e1, e2,
      lor_shr_small _ _ 5 (e3 _) (by omega), Nat.and_distrib_right,
      small_and31 _ (e3 _)]

theorem shiftLeftC_eval_hide (d : CanvasData) (hb : ∀ x y, d x y < 64)
    (x : Fin 16) (y : Fin 8) :
    shiftLeftC Gap.hide d x y = ((d x y <<< 1) &&& 63) ||| (d (x + 1) y >>> 5) := by
  have e1 : ∀ c : Fin 16, (d c y <<< 1) % 256 = d c y <<< 1 :=
    fun c => shl1_mod _ (by have := hb c y; omega)
  have e2 : ∀ c : Fin 16, (d c y <<< 1) >>> 6 = d c y >>> 5 :=
    fun c => shl1_shr6 _
  have e3 : ∀ c : Fin 16, d c y >>> 5 ≤ 1 :=
    fun c => shr5_le_one _ (hb c y)
  fin_cases x <;>
    simp +decide [shiftLeftC, shiftLoop, shiftStep, shiftAmt, Fin.ofNat, e1, e2,
      lor_shr_small _ _ 6 (e3 _) (by omega), Nat.and_distrib_right,
      small_and63 _ (e3 _)]

theorem shiftLeftC_arith_skip (d : CanvasData) (hb : ∀ x y, d x y < 32)
    (x : Fin 16) (y : Fin 8) :
    shiftLeftC Gap.skip d x y = d x y * 2 % 32 + d (x + 1) y / 16 := by
  rw [shiftLeftC_eval_skip d hb x y]
  rw [Nat.shiftLeft_eq, Nat.shiftRight_eq_div_pow]
  norm_num
  have h31 : (31 : Nat) = 2 ^ 5 - 1 := by norm_num
  rw [h31, Nat.and_pow_two_sub_one_eq_mod]
  apply even_lor
  · omega
  · have := hb (x + 1) y
    omega

theorem shiftLeftC_arith_hide (d : CanvasData) (hb : ∀ x y, d x y < 64)
    (x : Fin 16) (y : Fin 8) :
    shiftLeftC Gap.hide d x y = d x y * 2 % 64 + d (x + 1) y / 32 := by
  rw [shiftLeftC_eval_hide d hb x y]
  rw [Nat.shiftLeft_eq, Nat.shiftRight_eq_div_pow]
  norm_num
  have h63 : (63 : Nat) = 2 ^ 6 - 1 := by norm_num
  rw [h63, Nat.and_pow_two_sub_one_eq_mod]
  apply even_lor
  · omega
  · have := hb (x + 1) y
    omega

end Lcd

namespace Lcd

/-! ### Iterated shifts: one full cell per 5 or 6 applications -/

theorem skip_five (d : CanvasData) (hb : ∀ x y, d x y < 32) :
    ∀ x y, (shiftLeftC Gap.skip)^[5] d x y = d (x + 1) y := by
  have h1 : ∀ x y, shiftLeftC Gap.skip d x y
      = d x y * 2 % 32 + d (x + 1) y / 16 := shiftLeftC_arith_skip d hb
  have b1 : ∀ x y, shiftLeftC Gap.skip d x y < 32 := by
    intro x y
    rw [h1]
    have := hb x y
    have := hb (x + 1) y
    omega
  have h2 : ∀ x y, (shiftLeftC Gap.skip)^[2] d x y
      = d x y * 4 % 32 + d (x + 1) y / 8 := by
    intro x y
    have e : (shiftLeftC Gap.skip)^[2] d
        = shiftLeftC Gap.skip (shiftLeftC Gap.skip d) := rfl
    rw [e, shiftLeftC_arith_skip _ b1 x y, h1, h1]
    have := hb x y
    have := hb (x + 1) y
    have := hb (x + 1 + 1) y
    omega
  have b2 : ∀ x y, (shiftLeftC Gap.skip)^[2] d x y < 32 := by
    intro x y
    rw [h2]
    have := hb x y
    have := hb (x + 1) y
    omega
  have h3 : ∀ x y, (shiftLeftC Gap.skip)^[3] d x y
      = d x y * 8 % 32 + d (x + 1) y / 4 := by
    intro x y
    have e : (shiftLeftC Gap.skip)^[3] d
        = shiftLeftC Gap.skip ((shiftLeftC Gap.skip)^[2] d) := rfl
    rw [e, shiftLeftC_arith_skip _ b2 x y, h2, h2]
    have := hb x y
    have := hb (x + 1) y
    have := hb (x + 1 + 1) y
    omega
  have b3 : ∀ x y, (shiftLeftC Gap.skip)^[3] d x y < 32 := by
    intro x y
    rw [h3]
    have := hb x y
    have := hb (x + 1) y
    omega
  have h4 : ∀ x y, (shiftLeftC Gap.skip)^[4] d x y
      = d x y * 16 % 32 + d (x + 1) y / 2 := by
    intro x y
    have e : (shiftLeftC Gap.skip)^[4] d
        = shiftLeftC Gap.skip ((shiftLeftC Gap.skip)^[3] d) := rfl
    rw [e, shiftLeftC_arith_skip _ b3 x y, h3, h3]
    have := hb x y
    have := hb (x + 1) y
    have := hb (x + 1 + 1) y
    omega
  have b4 : ∀ x y, (shiftLeftC Gap.skip)^[4] d x y < 32 := by
    intro x y
    rw [h4]
    have := hb x y
    have := hb (x + 1) y
    omega
  intro x y
  have e : (shiftLeftC Gap.skip)^[5] d
      = shiftLeftC Gap.skip ((shiftLeftC Gap.skip)^[4] d) := rfl
  rw [e, shiftLeftC_arith_skip _ b4 x y, h4, h4]
  have := hb x y
  have := hb (x + 1) y
  have := hb (x + 1 + 1) y
  omega

theorem hide_six (d : CanvasData) (hb : ∀ x y, d x y < 64) :
    ∀ x y, (shiftLeftC Gap.hide)^[6] d x y = d (x + 1) y := by
  have h1 : ∀ x y, shiftLeftC Gap.hide d x y
      = d x y * 2 % 64 + d (x + 1) y / 32 := shiftLeftC_arith_hide d hb
  have b1 : ∀ x y, shiftLeftC Gap.hide d x y < 64 := by
    intro x y
    rw [h1]
    have := hb x y
    have := hb (x + 1) y
    omega
  have h2 : ∀ x y, (shiftLeftC Gap.hide)^[2] d x y
      = d x y * 4 % 64 + d (x + 1) y / 16 := by
    intro x y
    have e : (shiftLeftC Gap.hide)^[2] d
        = shiftLeftC Gap.hide (shiftLeftC Gap.hide d) := rfl
    rw [e, shiftLeftC_arith_hide _ b1 x y, h1, h1]
    have := hb x y
    have := hb (x + 1) y
    have := hb (x + 1 + 1) y
    omega
  have b2 : ∀ x y, (shiftLeftC Gap.hide)^[2] d x y < 64 := by
    intro x y
    rw [h2]
    have := hb x y
    have := hb (x + 1) y
    omega
  have h3 : ∀ x y, (shiftLeftC Gap.hide)^[3] d x y
      = d x y * 8 % 64 + d (x + 1) y / 8 := by
    intro x y
    have e : (shiftLeftC Gap.hide)^[3] d
        = shiftLeftC Gap.hide ((shiftLeftC Gap.hide)^[2] d) := rfl
    rw [e, shiftLeftC_arith_hide _ b2 x y, h2, h2]
    have := hb x y
    have := hb (x + 1) y
    have := hb (x + 1 + 1) y
    omega
  have b3 : ∀ x y, (shiftLeftC Gap.hide)^[3] d x y < 64 := by
    intro x y
    rw [h3]
    have := hb x y
    have := hb (x + 1) y
    omega
  have h4 : ∀ x y, (shiftLeftC Gap.hide)^[4] d x y
      = d x y * 16 % 64 + d (x + 1) y / 4 := by
    intro x y
    have e : (shiftLeftC Gap.hide)^[4] d
        = shiftLeftC Gap.hide ((shiftLeftC Gap.hide)^[3] d) := rfl
    rw [e, shiftLeftC_arith_hide _ b3 x y, h3, h3]
    have := hb x y
    have := hb (x + 1) y
    have := hb (x + 1 + 1) y
    omega
  have b4 : ∀ x y, (shiftLeftC Gap.hide)^[4] d x y < 64 := by
    intro x y
    rw [h4]
    have := hb x y
    have := hb (x + 1) y
    omega
  have h5 : ∀ x y, (shiftLeftC Gap.hide)^[5] d x y
      = d x y * 32 % 64 + d (x + 1) y / 2 := by
    intro x y
    have e : (shiftLeftC Gap.hide)^[5] d
        = shiftLeftC Gap.hide ((shiftLeftC Gap.hide)^[4] d) := rfl
    rw [e, shiftLeftC_arith_hide _ b4 x y, h4, h4]
    have := hb x y
    have := hb (x + 1) y
    have := hb (x + 1 + 1) y
    omega
  have b5 : ∀ x y, (shiftLeftC Gap.hide)^[5] d x y < 64 := by
    intro x y
    rw [h5]
    have := hb x y
    have := hb (x + 1) y
    omega
  have h6 : ∀ x y, (shiftLeftC Gap.hide)^[6] d x y
      = d x y * 64 % 64 + d (x + 1) y / 1 := by
    intro x y
    have e : (shiftLeftC Gap.hide)^[6] d
        = shiftLeftC Gap.hide ((shiftLeftC Gap.hide)^[5] d) := rfl
    rw [e, shiftLeftC_arith_hide _ b5 x y, h5, h5]
    have := hb x y
    have := hb (x + 1) y
    have := hb (x + 1 + 1) y
    omega
  intro x y
  rw [h6]
  have := hb (x + 1) y
  omega

theorem period_skip (d : CanvasData) (hb : ∀ x y, d x y < 32) :
    (shiftLeftC Gap.skip)^[80] d = d := by
  have key : ∀ j : Nat,
      (shiftLeftC Gap.skip)^[5 * j] d = fun x y => d (x + (j : Fin 16)) y := by
    intro j
    induction j with
    | zero =>
      funext x y
      simp
    | succ n ih =>
      have e : 5 * (n + 1) = 5 + 5 * n := by ring
      rw [e, Function.iterate_add_apply, ih]
      funext x y
      have hbn : ∀ (x : Fin 16) (y : Fin 8), (fun x y => d (x + (n : Fin 16)) y) x y < 32 :=
        fun x y => hb _ _
      rw [skip_five _ hbn x y]
      have hc : (((n + 1 : Nat)) : Fin 16) = (n : Fin 16) + 1 := by
        push_cast
        ring
      rw [hc]
      congr 1
      ring
  have h80 : (80 : Nat) = 5 * 16 := rfl
  rw [h80, key 16]
  funext x y
  congr 1
  show x + ((16 : Nat) : Fin 16) = x
  have : ((16 : Nat) : Fin 16) = 0 := by decide
  rw [this, add_zero]

theorem period_hide (d : CanvasData) (hb : ∀ x y, d x y < 64) :
    (shiftLeftC Gap.hide)^[96] d = d := by
  have key : ∀ j : Nat,
      (shiftLeftC Gap.hide)^[6 * j] d = fun x y => d (x + (j : Fin 16)) y := by
    intro j
    induction j with
    | zero =>
      funext x y
      simp
    | succ n ih =>
      have e : 6 * (n + 1) = 6 + 6 * n := by ring
      rw [e, Function.iterate_add_apply, ih]
      funext x y
      have hbn : ∀ (x : Fin 16) (y : Fin 8), (fun x y => d (x + (n : Fin 16)) y) x y < 64 :=
        fun x y => hb _ _
      rw [hide_six _ hbn x y]
      have hc : (((n + 1 : Nat)) : Fin 16) = (n : Fin 16) + 1 := by
        push_cast
        ring
      rw [hc]
      congr 1
      ring
  have h96 : (96 : Nat) = 6 * 16 := rfl
  rw [h96, key 16]
  funext x y
  congr 1
  show x + ((16 : Nat) : Fin 16) = x
  have : ((16 : Nat) : Fin 16) = 0 := by decide
  rw [this, add_zero]

theorem ckHide_step (k : Fin 16) :
    shiftLeftC Gap.hide (ckHide k.val) = ckHide (k.val + 1) := by
  fin_cases k <;>
  · funext x y
    rw [shiftLeftC_eval_hide _ (by decide) x y]
    revert x y
    decide

theorem ckSkip_step (k : Fin 16) :
    shiftLeftC Gap.skip (ckSkip k.val) = ckSkip (k.val + 1) := by
  fin_cases k <;>
  · funext x y
    rw [shiftLeftC_eval_skip _ (by decide) x y]
    revert x y
    decide


theorem ckHide_iter (k : Nat) (hk : k ≤ 16) :
    (shiftLeftC Gap.hide)^[k] (ckHide 0) = ckHide k := by
  induction k with
  | zero => rfl
  | succ n ih =>
    rw [Function.iterate_succ_apply', ih (by omega)]
    exact ckHide_step ⟨n, by omega⟩

theorem ckSkip_iter (k : Nat) (hk : k ≤ 16) :
    (shiftLeftC Gap.skip)^[k] (ckSkip 0) = ckSkip k := by
  induction k with
  | zero => rfl
  | succ n ih =>
    rw [Function.iterate_succ_apply', ih (by omega)]
    exact ckSkip_step ⟨n, by omega⟩

end Lcd

namespace Lcd

/-! ### Glyph-cache helpers -/

theorem position_eq_some {g : List Nat} :
    ∀ {cg : List (List Nat)} {i : Nat}, position g cg = some i →
      cg.getD i [] = g ∧ i < cg.length
  | [], i, h => by simp [position] at h
  | c :: rest, i, h => by
    by_cases hc : c = g
    · simp [position, hc] at h
      subst h
      simp [hc]
    · simp [position, hc] at h
      obtain ⟨j, hj, rfl⟩ := h
      obtain ⟨h1, h2⟩ := position_eq_some hj
      refine ⟨by simpa using h1, by simpa using h2⟩

theorem position_none_not_mem {g : List Nat} :
    ∀ {cg : List (List Nat)}, position g cg = none → g ∉ cg
  | [], _ => by simp
  | c :: rest, h => by
    by_cases hc : c = g
    · simp [position, hc] at h
    · simp [position, hc] at h
      have := position_none_not_mem h
      simp [this, hc]
      exact fun e => hc e.symm

theorem position_append_self {g : List Nat} :
    ∀ {cg : List (List Nat)}, position g cg = none →
      position g (cg ++ [g]) = some cg.length
  | [], _ => by simp [position]
  | c :: rest, h => by
    by_cases hc : c = g
    · simp [position, hc] at h
    · simp [position, hc] at h ⊢
      exact position_append_self h

theorem renderChar_slot {g : List Nat} {cg : List (List Nat)}
    (hrom : ddromSearch g = none) (hcap : cg.length < 8) :
    (renderChar g cg).2.getD (renderChar g cg).1 [] = g ∧
    (renderChar g cg).1 < (renderChar g cg).2.length ∧
    ∃ t, (renderChar g cg).2 = cg ++ t := by
  unfold renderChar
  rw [hrom]
  cases hp : position g cg with
  | some i =>
    obtain ⟨h1, h2⟩ := position_eq_some hp
    exact ⟨h1, h2, [], by simp⟩
  | none =>
    simp only [if_pos hcap]
    refine ⟨?_, by simp, [g], rfl⟩
    rw [List.getD_append_right _ _ _ _ le_rfl]
    simp


/-! ### Diff-pass helpers -/

theorem changes_nil_left (new : List Nat) : changes [] new = [] := by
  simp [changes]

theorem filterMap_shift (l : List (Nat × (Nat × Nat))) :
    (l.map (Prod.map (· + 1) id)).filterMap
        (fun p => if p.2.1 ≠ p.2.2 then some (p.1, p.2.2) else none)
      = (l.filterMap fun p => if p.2.1 ≠ p.2.2 then some (p.1, p.2.2) else none).map
          (Prod.map (· + 1) id) := by
  rw [List.filterMap_map, List.map_filterMap]
  congr 1
  funext p
  by_cases h : p.2.1 = p.2.2 <;> simp [h, Prod.map]

theorem changes_cons (o n : Nat) (old new : List Nat) :
    changes (o :: old) (n :: new)
      = (if o ≠ n then [(0, n)] else [])
          ++ (changes old new).map (Prod.map (· + 1) id) := by
  unfold changes
  rw [List.zip_cons_cons, List.enum_cons', List.filterMap_cons, filterMap_shift]
  by_cases h : o = n <;> simp [h]


theorem changes_self : ∀ l : List Nat, changes l l = []
  | [] => changes_nil_left []
  | a :: rest => by
    rw [changes_cons]
    simp [changes_self rest]

theorem changes_set : ∀ (l : List Nat) (i v : Nat), i < l.length →
    l.getD i 0 ≠ v → changes l (l.set i v) = [(i, v)]
  | [], i, v, h, _ => by simp at h
  | a :: rest, 0, v, _, hne => by
    simp at hne
    rw [List.set_cons_zero, changes_cons]
    simp [hne, changes_self rest]
  | a :: rest, i + 1, v, h, hne => by
    simp at h
    rw [List.getD_cons_succ] at hne
    rw [List.set_cons_succ, changes_cons]
    simp [changes_set rest i v (by omega) hne, Prod.map]

end Lcd

namespace Lcd

/-! ### Claim theorems -/

/-- C1 (amended): when the cache is already full (8 occupied slots) and
the resolved glyph matches neither a ROM entry nor any occupied slot,
`render_char` returns the byte `b' '` = 32 — the ASCII space code — with
no error and the cache left unchanged.  This byte is not the address the
ROM table assigns to the all-blank bitmap (which is `0x83`); see the
counterexample. -/
theorem c1_cache_full_returns_space : ∀ (g : List Nat) (cg : List (List Nat)),
    ddromSearch g = none → position g cg = none → 8 ≤ cg.length →
    renderChar g cg = (32, cg) := by
  intro g cg h1 h2 h3
  simp [renderChar, h1, h2]
  omega

/-- Witness for C1: a concrete full cache and a concrete unmatched glyph. -/
theorem c1_cache_full_returns_space_witness :
    ddromSearch c1Glyph = none ∧ position c1Glyph c1FullCache = none ∧
    8 ≤ c1FullCache.length ∧
    renderChar c1Glyph c1FullCache = (32, c1FullCache) :=
  ⟨by decide, by decide, by decide,
    c1_cache_full_returns_space c1Glyph c1FullCache (by decide) (by decide)
      (by decide)⟩

/-- Counterexample to C1 as stated: with a full cache and a glyph matching
neither the ROM nor any slot, `render_char` returns 32, while the ROM
table assigns the all-blank bitmap the address `0x83 = 131`, so the
returned byte is not the blank glyph's ROM address. -/
theorem c1_blank_rom_address_counterexample :
    c1FullCache.length = 8 ∧
    ddromSearch c1Glyph = none ∧
    position c1Glyph c1FullCache = none ∧
    renderChar c1Glyph c1FullCache = (32, c1FullCache) ∧
    ddromSearch blankRows = some 131 ∧
    (32 : Nat) ≠ 131 :=
  ⟨rfl, by decide, by decide, by decide, by decide, by decide⟩

/-- C2 (code bug): previous and new images differing at exactly one CGRAM
byte, at flattened index 1 = `c2NewCg.length`.  Because the CGRAM fold is
seeded with the slot count `cgram.len()`, the accumulator already equals
the changed byte's index, and the pass issues a single bare data write
with no preceding CGRAM address-set command. -/
theorem c2_single_byte_missing_address_set :
    changes c2OldCg.flatten c2NewCg.flatten = [(1, 5)] ∧
    cgramOps c2OldCg c2NewCg = [Op.write 5] := by
  constructor <;> rfl

/-- C3 (amended): sixteen `shift_left` applications do not in general
restore the canvas under either gap policy — the single-pixel canvas is a
counterexample for both `Hide` and `Skip`.  The glyph-boundary carries are
in fact lossless rotations under both policies: a full cycle takes 96
applications under `Hide` (16 cells × 6 bits) and 80 under `Skip`
(16 cells × 5 bits), for any canvas whose rows fit the visible field. -/
theorem c3_shift_left_period :
    (shiftLeftC Gap.hide)^[16] (ckHide 0) ≠ ckHide 0 ∧
    (shiftLeftC Gap.skip)^[16] (ckSkip 0) ≠ ckSkip 0 ∧
    (∀ d : CanvasData, (∀ x y, d x y < 64) → (shiftLeftC Gap.hide)^[96] d = d) ∧
    (∀ d : CanvasData, (∀ x y, d x y < 32) → (shiftLeftC Gap.skip)^[80] d = d) := by
  refine ⟨?_, ?_, period_hide, period_skip⟩
  · rw [ckHide_iter 16 le_rfl]
    decide
  · rw [ckSkip_iter 16 le_rfl]
    decide

/-- Witness for C3: the 96-fold `Hide` cycle applied to a concrete
canvas. -/
theorem c3_shift_left_period_witness :
    (∀ x y, ckHide 0 x y < 64) ∧
    (shiftLeftC Gap.hide)^[96] (ckHide 0) = ckHide 0 :=
  ⟨by decide, c3_shift_left_period.2.2.1 (ckHide 0) (by decide)⟩

/-- Counterexample to C3 as stated: under the `Hide` policy, sixteen
applications of `shift_left` do not return the single-pixel canvas to
bit-identical content (the pixel ends up in cell 14, bit 4). -/
theorem c3_hide_sixteen_counterexample :
    (shiftLeftC Gap.hide)^[16] (ckHide 0) ≠ ckHide 0 := by
  rw [ckHide_iter 16 le_rfl]
  decide

/-- C4: for every canvas whose rows fit the visible field (5 bits under
`Skip`, 6 bits under `Hide`), `shift_left` shifts every row one bit left,
masks it to the field width, and carries the bit shifted out of a cell
into the low bit of the same row of the previous cell, wrapping from cell
0 to cell 15 (equivalently: cell `x` receives the top visible bit of cell
`x + 1`). -/
theorem c4_shift_left_semantics :
    shiftAmt Gap.skip = 5 ∧ shiftAmt Gap.hide = 6 ∧
    ∀ (g : Gap) (d : CanvasData), (∀ x y, d x y < 2 ^ shiftAmt g) →
      ∀ x y, shiftLeftC g d x y
        = ((d x y <<< 1) &&& (2 ^ shiftAmt g - 1))
            ||| (d (x + 1) y >>> (shiftAmt g - 1)) := by
  refine ⟨rfl, rfl, ?_⟩
  intro g d hb x y
  cases g with
  | skip =>
    have hb32 : ∀ x y, d x y < 32 := by
      intro x y
      have := hb x y
      norm_num [shiftAmt] at this
      exact this
    simpa +decide [shiftAmt] using shiftLeftC_eval_skip d hb32 x y
  | hide =>
    have hb64 : ∀ x y, d x y < 64 := by
      intro x y
      have := hb x y
      norm_num [shiftAmt] at this
      exact this
    simpa +decide [shiftAmt] using shiftLeftC_eval_hide d hb64 x y

/-- Witness for C4 at a concrete canvas and cell. -/
theorem c4_shift_left_semantics_witness :
    (∀ x y, ckHide 0 x y < 2 ^ shiftAmt Gap.skip) ∧
    shiftLeftC Gap.skip (ckHide 0) 3 0
      = ((ckHide 0 3 0 <<< 1) &&& (2 ^ shiftAmt Gap.skip - 1))
          ||| (ckHide 0 (3 + 1) 0 >>> (shiftAmt Gap.skip - 1)) :=
  ⟨by decide, c4_shift_left_semantics.2.2 Gap.skip (ckHide 0) (by decide) 3 0⟩

/-- C5: within one render pass, while the cache has spare capacity,
distinct non-ROM glyphs resolve to distinct addresses, resolving the same
non-ROM glyph twice returns the same address (and the same cache), and
every resolution preserves the no-duplicate-slots invariant. -/
theorem c5_cache_resolution_invariants :
    (∀ (g1 g2 : List Nat) (cg : List (List Nat)),
      ddromSearch g1 = none → ddromSearch g2 = none → g1 ≠ g2 →
      cg.length < 8 → (renderChar g1 cg).2.length < 8 →
      (renderChar g1 cg).1 ≠ (renderChar g2 (renderChar g1 cg).2).1) ∧
    (∀ (g : List Nat) (cg : List (List Nat)),
      ddromSearch g = none → cg.length < 8 →
      renderChar g (renderChar g cg).2 = renderChar g cg) ∧
    (∀ (g : List Nat) (cg : List (List Nat)),
      cg.Nodup → (renderChar g cg).2.Nodup) := by
  refine ⟨?_, ?_, ?_⟩
  · intro g1 g2 cg hr1 hr2 hne hc1 hc2
    obtain ⟨m1, l1, t1, ht1⟩ := renderChar_slot hr1 hc1
    obtain ⟨m2, l2, t2, ht2⟩ := renderChar_slot hr2 hc2
    intro heq
    apply hne
    rw [← m1, ← m2, ← heq]
    rw [ht2, List.getD_append _ _ _ _ l1]
  · intro g cg hrom hcap
    cases hp : position g cg with
    | some i =>
      have h1 : renderChar g cg = (i, cg) := by
        simp [renderChar, hrom, hp]
      rw [h1]
      simp [renderChar, hrom, hp]
    | none =>
      have h1 : renderChar g cg = (cg.length, cg ++ [g]) := by
        simp [renderChar, hrom, hp, hcap]
      rw [h1]
      simp [renderChar, hrom, position_append_self hp]
  · intro g cg hnd
    unfold renderChar
    cases hs : ddromSearch g with
    | some a => exact hnd
    | none =>
      cases hp : position g cg with
      | some i => exact hnd
      | none =>
        by_cases hcap : cg.length < 8
        · simp only [if_pos hcap]
          refine List.Nodup.append hnd (by simp) ?_
          intro a ha hb
          simp at hb
          subst hb
          exact position_none_not_mem hp ha
        · simp only [if_neg hcap]
          exact hnd

/-- Witness for C5: two concrete distinct non-ROM glyphs on concrete
caches. -/
theorem c5_cache_resolution_invariants_witness :
    (renderChar [31, 31, 31, 31, 31, 31, 31, 8] []).1
      ≠ (renderChar c1Glyph (renderChar [31, 31, 31, 31, 31, 31, 31, 8] []).2).1 ∧
    renderChar c1Glyph (renderChar c1Glyph []).2 = renderChar c1Glyph [] ∧
    (renderChar c1Glyph [blankRows]).2.Nodup :=
  ⟨c5_cache_resolution_invariants.1 _ _ _ (by decide) (by decide) (by decide)
      (by decide) (by decide),
   c5_cache_resolution_invariants.2.1 _ _ (by decide) (by decide),
   c5_cache_resolution_invariants.2.2 _ _ (by decide)⟩

/-- C6: a glyph bit-identical to a ROM entry resolves to that entry's ROM
address, for any cache state, with the cache left unchanged. -/
theorem c6_rom_match_bypasses_cache : ∀ (g : List Nat) (cg : List (List Nat))
    (a : Nat), ddromSearch g = some a → renderChar g cg = (a, cg) := by
  intro g cg a h
  simp [renderChar, h]

/-- Witness for C6: the bitmap of `'A'` resolves to `0x41` over a
nonempty cache. -/
theorem c6_rom_match_bypasses_cache_witness :
    ddromSearch [14, 17, 17, 17, 31, 17, 17, 0] = some 65 ∧
    renderChar [14, 17, 17, 17, 31, 17, 17, 0] [[1, 1, 1, 1, 1, 1, 1, 1]]
      = (65, [[1, 1, 1, 1, 1, 1, 1, 1]]) :=
  ⟨by decide, c6_rom_match_bypasses_cache _ _ _ (by decide)⟩

/-- C7: a single changed DDRAM cell `i` is addressed at device address `i`
for `i < 8` and `i - 8 + 0x40` for `i ≥ 8`; the pass issues exactly the
address-set followed by the write. -/
theorem c7_ddram_address_mapping : ∀ (dd : List Nat) (i v : Nat),
    dd.length = 16 → i < 16 → dd.getD i 0 ≠ v →
    ddramOps dd (dd.set i v)
      = [Op.setDd (if i ≥ 8 then i - 8 + 0x40 else i), Op.write v] := by
  intro dd i v hlen hi hne
  unfold ddramOps
  rw [changes_set dd i v (by omega) hne]
  simp only [updFold, List.length_set, hlen, ddramAddr]
  have h16 : ¬((16 : Nat) = if 8 ≤ i then i - 8 + 64 else i) := by
    split <;> omega
  simp [h16, ge_iff_le]

/-- Witness for C7 at cell 9: device address `9 - 8 + 0x40 = 0x41`. -/
theorem c7_ddram_address_mapping_witness :
    (List.replicate 16 0).length = 16 ∧
    ddramOps (List.replicate 16 0) ((List.replicate 16 0).set 9 7)
      = [Op.setDd 65, Op.write 7] := by
  refine ⟨by decide, ?_⟩
  have := c7_ddram_address_mapping (List.replicate 16 0) 9 7 (by decide)
    (by decide) (by decide)
  simpa using this

/-- C8: a diff/update pass over byte-for-byte equal previous and new
images issues no operations at all. -/
theorem c8_diff_idempotent : ∀ (dd : List Nat) (cg : List (List Nat)),
    ddramOps dd dd = [] ∧ cgramOps cg cg = [] := by
  intro dd cg
  constructor
  · unfold ddramOps
    rw [changes_self]
    rfl
  · unfold cgramOps
    rw [changes_self]
    rfl

/-- C9: `exec` selects the instruction register and write direction, puts
the encoded command byte on the bus, pulses enable high then low, and
blocks 1600 time-units for `Clear`/`ReturnHome` and 40 for every other
command; `write` selects the data register and blocks 37 time-units after
its pulse. -/
theorem c9_exec_write_timing :
    (∀ cmd : Command, execTrace cmd
        = [Ev.rs false, Ev.rw false, Ev.bus cmd.bits, Ev.en true, Ev.en false,
           Ev.delay (settleTime cmd)]) ∧
    settleTime Command.clear = 1600 ∧ settleTime Command.returnHome = 1600 ∧
    (∀ cmd : Command, cmd ≠ Command.clear → cmd ≠ Command.returnHome →
      settleTime cmd = 40) ∧
    (∀ v : Nat, writeTrace v
        = [Ev.rs true, Ev.rw false, Ev.bus v, Ev.en true, Ev.en false,
           Ev.delay 37]) := by
  refine ⟨fun cmd => rfl, rfl, rfl, ?_, fun v => rfl⟩
  intro cmd h1 h2
  cases cmd <;> first | rfl | exact absurd rfl h1 | exact absurd rfl h2

/-- Witness for C9: a non-clear command settles for 40 time-units. -/
theorem c9_exec_write_timing_witness :
    settleTime (Command.onoff true false false) = 40 :=
  c9_exec_write_timing.2.2.2.1 _ (by simp) (by simp)

/-- C10: a failed direction transition leaves the bus in `Null` and
propagates the error; any later `write` or `read` from `Null` reaches the
`unreachable!()` arm and panics instead of returning an error; and from
any non-`Null` state that arm is indeed unreachable. -/
theorem c10_bus_null_behavior :
    (∀ e : Nat, makeInput (some e) BusSt.output = (BusSt.null, some e) ∧
                makeOutput (some e) BusSt.input = (BusSt.null, some e)) ∧
    (∀ (pe : Option Nat) (v : Nat),
        (busWrite pe BusSt.null v).2 = BusOutcome.panicked ∧
        (busRead pe BusSt.null).2 = BusOutcome.panicked) ∧
    (∀ (pe : Option Nat) (s : BusSt) (v : Nat), s ≠ BusSt.null →
        (busWrite pe s v).2 ≠ BusOutcome.panicked ∧
        (busRead pe s).2 ≠ BusOutcome.panicked) := by
  refine ⟨fun e => ⟨rfl, rfl⟩, fun pe v => ⟨rfl, rfl⟩, ?_⟩
  intro pe s v hs
  cases s with
  | null => exact absurd rfl hs
  | input =>
    cases pe <;> constructor <;> simp [busWrite, busRead, makeOutput, makeInput,
      intoOutput, intoInput]
  | output =>
    cases pe <;> constructor <;> simp [busWrite, busRead, makeOutput, makeInput,
      intoOutput, intoInput]

/-- Witness for C10: writing and reading on a driving (output) bus never
hits the unreachable arm. -/
theorem c10_bus_null_behavior_witness :
    (busWrite none BusSt.output 170).2 ≠ BusOutcome.panicked ∧
    (busRead none BusSt.output).2 ≠ BusOutcome.panicked :=
  ⟨(c10_bus_null_behavior.2.2 none BusSt.output 170 (by simp)).1,
    (c10_bus_null_behavior.2.2 none BusSt.output 170 (by simp)).2⟩

end Lcd
